import Mathlib

/-!
# Cascade orchestration of `PlayPhoneAlgo` and `SmokeAlgo`

A shallow embedding of `src/src/play_phone_algo.cpp` and `src/src/smoke_algo.cpp`.

* `float` values that the code compares or passes on (scores, thresholds, scale factors)
  are `CFloat`: NaN, an infinity, or a finite value held as a rational; `<`, `>`, `<=`,
  `>=` on them are the IEEE comparisons, false as soon as one side is NaN.
* `float` box coordinates, which the code only casts with `(int)f`, are rationals; the cast
  of NaN, of an infinity or of a value outside `int` is undefined in C++ and not modelled.
* `int` values are `Int`; `(int)f` is truncation towards zero.  The products
  `width * height` of the ranking comparison are taken in `Int` (no 32-bit wrap-around).
* The collaborators that live outside the two files (inference engine, `BYTETracker`,
  `SequenceStatistic`, `scale_crop_rect`, `find_cover_objects`) are parameters, gathered in
  `Env`; their mutable objects are explicit state.
* A frame pass returns, next to the new state and the result, a trace of the calls it made
  to the collaborators (`Trace`).
-/

namespace gddi

/-! ## Data model -/

/-- A `float` as the comparisons of the source see it. -/
inductive CFloat where
  | nan
  | neg_inf
  | fin (q : ℚ)
  | pos_inf
deriving DecidableEq, Repr

/-- The IEEE comparison `a < b` on `float`. -/
def CFloat.lt : CFloat → CFloat → Bool
  | .fin a, .fin b => decide (a < b)
  | .neg_inf, .fin _ => true
  | .neg_inf, .pos_inf => true
  | .fin _, .pos_inf => true
  | _, _ => false

/-- The IEEE comparison `a <= b` on `float`. -/
def CFloat.le : CFloat → CFloat → Bool
  | .fin a, .fin b => decide (a ≤ b)
  | .neg_inf, .neg_inf => true
  | .neg_inf, .fin _ => true
  | .neg_inf, .pos_inf => true
  | .fin _, .pos_inf => true
  | .pos_inf, .pos_inf => true
  | _, _ => false

/-- The test `std::isnan(a)`. -/
def CFloat.isNaN : CFloat → Bool
  | .nan => true
  | _ => false

instance : LT CFloat := ⟨fun a b => CFloat.lt a b = true⟩

instance : LE CFloat := ⟨fun a b => CFloat.le a b = true⟩

instance (a b : CFloat) : Decidable (a < b) :=
  inferInstanceAs (Decidable (CFloat.lt a b = true))

instance (a b : CFloat) : Decidable (a ≤ b) :=
  inferInstanceAs (Decidable (CFloat.le a b = true))

/-- A `cv::Rect`. -/
structure Rect where
  x : Int
  y : Int
  width : Int
  height : Int
deriving DecidableEq, Repr

/-- The `AlgoObject` record, with its fields in the order of the brace initialisers of the
source: `target_id, class_id, label, score, rect, track_id`. -/
structure AlgoObject where
  target_id : Int
  class_id : Int
  label : String
  score : CFloat
  rect : Rect
  track_id : Int
deriving DecidableEq, Repr

/-- The `ModelConfig` record: the fields the two files read. -/
structure ModelConfig where
  name : String
  path : String
  license : String
  threshold : CFloat
  nms_threshold : CFloat
  crop_scale_factor : CFloat
  max_crop_number : Nat
deriving DecidableEq, Repr

/-- A `gddeploy::InferAPI` object on which `Init` has been called, identified by the model
path and license it was opened with. -/
structure InferAPI where
  model_path : String
  license : String
deriving DecidableEq, Repr

/-- The `gddeploy` result-type discriminator; only `GDD_RESULT_TYPE_DETECT` is read. -/
inductive ResultType where
  | GDD_RESULT_TYPE_DETECT
  | GDD_RESULT_TYPE_OTHER (code : Nat)
deriving DecidableEq, Repr

/-- The `bbox` of a raw detection (`float` fields). -/
structure Bbox where
  x : ℚ
  y : ℚ
  w : ℚ
  h : ℚ
deriving DecidableEq, Repr

/-- One entry of `detect_objs`. -/
structure DetectObject where
  class_id : Int
  label : String
  score : CFloat
  bbox : Bbox
deriving DecidableEq, Repr

/-- One entry of `detect_result.detect_imgs`. -/
structure DetectImg where
  detect_objs : List DetectObject
deriving DecidableEq, Repr

/-- A `gddeploy::InferResult`: `result_type` and `detect_result.detect_imgs`. -/
structure InferResult where
  result_type : List ResultType
  detect_imgs : List DetectImg
deriving DecidableEq, Repr

/-- The `data` vector of a `gddeploy::Package` coming out of the engine: an entry is
`some r` when `HasMetaValue()` holds and `GetMetaData<InferResult>()` is `r`. -/
abbrev Package := List (Option InferResult)

/-- A `cv::Mat`: a frame, or the copy `src(rect).clone()` of a region of one. -/
inductive Mat where
  | frame (cols rows : Int) (content : Nat)
  | crop (src : Mat) (rect : Rect)
deriving DecidableEq, Repr

/-- The `cols` of a `cv::Mat`. -/
def Mat.cols : Mat → Int
  | .frame c _ _ => c
  | .crop _ r => r.width

/-- The `rows` of a `cv::Mat`. -/
def Mat.rows : Mat → Int
  | .frame _ r _ => r
  | .crop _ r => r.height

/-- What a stage-2 `in_package` carries: the surface and, when `SetAlgParam` was called,
the `AlgDetectParam{threshold, nms_threshold}`. -/
structure InPackage where
  surface : Mat
  alg_param : Option (CFloat × CFloat)
deriving DecidableEq, Repr

/-- The tracker input `Object` (`rect` is a `cv::Rect_<float>`). -/
structure Object where
  class_id : Int
  prob : CFloat
  rect_x : ℚ
  rect_y : ℚ
  rect_width : ℚ
  rect_height : ℚ
  label_name : String
deriving DecidableEq, Repr

/-- The fields of a tracker output `STrack` that the orchestrators read. -/
structure STrack where
  target_id : Int
  class_id : Int
  label_name : String
  score : CFloat
  tlwh0 : ℚ
  tlwh1 : ℚ
  tlwh2 : ℚ
  tlwh3 : ℚ
  track_id : Int
deriving DecidableEq, Repr

/-- The fields of `PlayPhoneAlgoConfig` / `SmokeAlgoConfig` handed to `find_cover_objects`. -/
structure AlgoConfig where
  include_labels : List String
  exclude_labels : List String
  map_label : List (String × String)
  cover_threshold : CFloat
deriving DecidableEq, Repr

/-- The collaborators of a pipeline instance.  `TS`, `SS`, `ES` are the states of the
`BYTETracker`, of the `SequenceStatistic` and of the stage-2 model `model_impls[1]`.
`InferSync` returns the new engine state, the status and the filled `out_package`;
`default_track_id` is the value `track_id` takes in `AlgoObject{a, b, c, d, e}`. -/
structure Env (TS SS ES : Type) where
  tracker_update : TS → List Object → TS × List STrack
  statistic_update : SS → List AlgoObject → SS × List AlgoObject
  InferSync : ES → InPackage → ES × Int × Package
  scale_crop_rect : Int → Int → Rect → CFloat → Rect
  find_cover_objects :
    List AlgoObject → List String → List String → List (String × String) → CFloat →
      List AlgoObject
  default_track_id : Int

/-- The mutable collaborators held by `private_`. -/
structure State (TS SS ES : Type) where
  tracker : TS
  sequence_statistic : SS
  engine : ES

/-- The calls a frame pass made, in call order: the lists handed to `tracker->update`, the
inputs of `model_impls[1]->InferSync`, the detection lists handed to `find_cover_objects`,
the lists handed to `sequence_statistic->update`, and the lists handed to
`infer_callback`. -/
structure Trace where
  tracker : List (List Object)
  stage2 : List InPackage
  cover : List (List AlgoObject)
  statistic : List (List AlgoObject)
  callback : List (List AlgoObject)
deriving DecidableEq, Repr

/-- The trace of a pass that called nothing. -/
def Trace.empty : Trace :=
  { tracker := [], stage2 := [], cover := [], statistic := [], callback := [] }

/-- The model part of `PlayPhoneAlgoPrivate` / `SmokeAlgoPrivate`. -/
structure ModelState where
  model_configs : List ModelConfig
  model_impls : List InferAPI
deriving DecidableEq, Repr

/-! ## `load_models` -/

/-- The handle `std::make_unique<gddeploy::InferAPI>()` after `Init("", model.path,
model.license, ...)`. -/
def algo_impl (model : ModelConfig) : InferAPI :=
  { model_path := model.path, license := model.license }

/-- The loop `for (const auto &model : models)` shared by both `load_models`: `Init` is the
status returned by `InferAPI::Init` for a model path and a license; a non-zero status
returns `false` at once, keeping the handles pushed so far. -/
def load_loop (Init : String → String → Int) :
    List ModelConfig → List InferAPI → Bool × List InferAPI
  | [], impls => (true, impls)
  | model :: rest, impls =>
    if Init model.path model.license ≠ 0 then (false, impls)
    else load_loop Init rest (impls ++ [algo_impl model])

/-- `PlayPhoneAlgo::load_models`: the returned flag and the model state after the call. -/
def PlayPhoneAlgo.load_models (Init : String → String → Int) (st : ModelState)
    (models : List ModelConfig) : Bool × ModelState :=
  if models.length ≠ 2 then (false, st)
  else
    let r := load_loop Init models []
    (r.1, { model_configs := models, model_impls := r.2 })

/-- `SmokeAlgo::load_models`: the returned flag and the model state after the call. -/
def SmokeAlgo.load_models (Init : String → String → Int) (_st : ModelState)
    (models : List ModelConfig) : Bool × ModelState :=
  let r := load_loop Init models []
  (r.1, { model_configs := models, model_impls := r.2 })

/-! ## Helpers shared by the frame passes -/

/-- The cast `(int)f` of a `float`: truncation towards zero. -/
def toInt (f : ℚ) : Int := Int.tdiv f.num f.den

/-- The guard `!pkg->data.empty() && pkg->data[0]->HasMetaValue()` together with
`pkg->data[0]->GetMetaData<gddeploy::InferResult>()`. -/
def meta_value : Package → Option InferResult
  | some r :: _ => some r
  | _ => none

/-- The `AlgoObject{index, obj.class_id, obj.label, obj.score, cv::Rect{...}}` built by both
`parse_infer_result`. -/
def parsed_object (dflt : Int) (index : Int) (obj : DetectObject) : AlgoObject :=
  { target_id := index, class_id := obj.class_id, label := obj.label, score := obj.score,
    rect := { x := toInt obj.bbox.x, y := toInt obj.bbox.y,
              width := toInt obj.bbox.w, height := toInt obj.bbox.h },
    track_id := dflt }

/-- `PlayPhoneAlgo::parse_infer_result`: the three nested loops, with `objects` and `index`
threaded through. -/
def PlayPhoneAlgo.parse_infer_result (dflt : Int) (infer_result : InferResult) :
    List AlgoObject :=
  infer_result.result_type.foldl (fun objects result_type =>
    if result_type = ResultType.GDD_RESULT_TYPE_DETECT then
      infer_result.detect_imgs.foldl (fun objects item =>
        (item.detect_objs.foldl (fun (acc : List AlgoObject × Int) obj =>
          (acc.1 ++ [parsed_object dflt acc.2 obj], acc.2 + 1)) (objects, 1)).1) objects
    else objects) []

/-- `SmokeAlgo::parse_infer_result`: as above, with `if (obj.score < threshold) continue;`. -/
def SmokeAlgo.parse_infer_result (dflt : Int) (infer_result : InferResult)
    (threshold : CFloat) : List AlgoObject :=
  infer_result.result_type.foldl (fun objects result_type =>
    if result_type = ResultType.GDD_RESULT_TYPE_DETECT then
      infer_result.detect_imgs.foldl (fun objects item =>
        (item.detect_objs.foldl (fun (acc : List AlgoObject × Int) obj =>
          if obj.score < threshold then acc
          else (acc.1 ++ [parsed_object dflt acc.2 obj], acc.2 + 1)) (objects, 1)).1) objects
    else objects) []

/-- The `Object{...}` pushed for a parsed detection (the `int` box read back as `float`). -/
def to_object (item : AlgoObject) : Object :=
  { class_id := item.class_id, prob := item.score,
    rect_x := item.rect.x, rect_y := item.rect.y,
    rect_width := item.rect.width, rect_height := item.rect.height,
    label_name := item.label }

/-- The `AlgoObject{...}` emplaced for a tracker output. -/
def to_tracked (item : STrack) : AlgoObject :=
  { target_id := item.target_id, class_id := item.class_id, label := item.label_name,
    score := item.score,
    rect := { x := toInt item.tlwh0, y := toInt item.tlwh1,
              width := toInt item.tlwh2, height := toInt item.tlwh3 },
    track_id := item.track_id }

/-- The trace of a pass that has called `tracker->update` on `infer_objects` and nothing
else. -/
def Trace.tracked (infer_objects : List AlgoObject) : Trace :=
  { Trace.empty with tracker := [infer_objects.map to_object] }

/-- The tracking step shared by all four passes: build the `Object`s, call
`tracker->update` once, convert its output.  Returns the new tracker state and
`tracked_objects` in tracker output order. -/
def track_step {TS SS ES : Type} (env : Env TS SS ES) (tracker : TS)
    (infer_objects : List AlgoObject) : TS × List AlgoObject :=
  let r := env.tracker_update tracker (infer_objects.map to_object)
  (r.1, r.2.map to_tracked)

/-- The lambda handed to `std::sort` in all four passes: `item1` goes before `item2`. -/
def rank_before (item1 item2 : AlgoObject) : Bool :=
  decide (item1.score > item2.score)
    && decide (item1.rect.width * item1.rect.height
        > item2.rect.width * item2.rect.height)

/-- The libstdc++ `std::__unguarded_linear_insert`: `val` walks left past every element it
goes before.  The already ordered range is passed nearest element first. -/
def unguarded_linear_insert {α : Type} (comp : α → α → Bool) (val : α) : List α → List α
  | [] => [val]
  | next :: rest =>
    if comp val next then next :: unguarded_linear_insert comp val rest
    else val :: next :: rest

/-- The libstdc++ `std::__insertion_sort`, one step: `sorted` is the ordered range so far,
nearest element first, so its last element is `*first`. -/
def insertion_step {α : Type} (comp : α → α → Bool) (sorted : List α) (val : α) : List α :=
  match sorted.getLast? with
  | none => [val]
  | some first =>
    if comp val first then sorted ++ [val]
    else unguarded_linear_insert comp val sorted

/-- The call `std::sort(begin, end, comp)` as libstdc++ runs it on a range of at most 16
elements (`_S_threshold`), where it is `std::__insertion_sort`.  The C++ standard fixes the
result only up to the order of equivalent elements, and only for a strict weak ordering. -/
def std_sort {α : Type} (comp : α → α → Bool) (l : List α) : List α :=
  (l.foldl (insertion_step comp) []).reverse

/-- The block `if (v.size() > max_crop_number) v.resize(max_crop_number);`. -/
def truncate_crops (max_crop_number : Nat) (v : List AlgoObject) : List AlgoObject :=
  if v.length > max_crop_number then v.take max_crop_number else v

/-- The ranking and truncation of `tracked_objects` shared by all four passes. -/
def retained_tracks (cfg1 : ModelConfig) (tracked_objects : List AlgoObject) :
    List AlgoObject :=
  truncate_crops cfg1.max_crop_number (std_sort rank_before tracked_objects)

/-! ## `PlayPhoneAlgo` frame passes -/

/-- The variables a per-crop loop of `PlayPhoneAlgo` reads and writes: the stage-2 model,
the vector `infer_objects` in scope, `cover_objects`, and the calls made so far. -/
structure Loop (ES : Type) where
  engine : ES
  infer_objects : List AlgoObject
  cover_objects : List AlgoObject
  trace : Trace

/-- The body of `for (auto &obj : infer_objects)` in `PlayPhoneAlgo`: shift the box by the
crop origin and stamp the track id. -/
def PlayPhoneAlgo.stamp (rect : Rect) (track_id : Int) (obj : AlgoObject) : AlgoObject :=
  { obj with
    rect := { obj.rect with x := obj.rect.x + rect.x, y := obj.rect.y + rect.y },
    track_id := track_id }

/-- The stage-2 `in_package` of `PlayPhoneAlgo` for the crop `rect` of `image`. -/
def PlayPhoneAlgo.crop_package (cfg1 : ModelConfig) (image : Mat) (rect : Rect) : InPackage :=
  { surface := Mat.crop image rect, alg_param := some (cfg1.threshold, cfg1.nms_threshold) }

/-- The body of `for (const auto &item : tracked_objects)` in `PlayPhoneAlgo::sync_infer`.
`infer_objects` is the function-level vector: it is assigned only under the `HasMetaValue`
guard and then modified in place. -/
def PlayPhoneAlgo.sync_crop {TS SS ES : Type} (env : Env TS SS ES) (config : AlgoConfig)
    (cfg1 : ModelConfig) (image : Mat) (s : Loop ES) (item : AlgoObject) : Loop ES :=
  let rect := env.scale_crop_rect image.cols image.rows item.rect cfg1.crop_scale_factor
  let in_package := PlayPhoneAlgo.crop_package cfg1 image rect
  let r := env.InferSync s.engine in_package
  let infer_objects :=
    match meta_value r.2.2 with
    | some res => PlayPhoneAlgo.parse_infer_result env.default_track_id res
    | none => s.infer_objects
  let infer_objects := infer_objects.map (PlayPhoneAlgo.stamp rect item.track_id)
  let objects := env.find_cover_objects infer_objects config.include_labels
    config.exclude_labels config.map_label config.cover_threshold
  { engine := r.1,
    infer_objects := infer_objects,
    cover_objects := s.cover_objects ++ objects,
    trace := { s.trace with stage2 := s.trace.stage2 ++ [in_package],
                            cover := s.trace.cover ++ [infer_objects] } }

/-- The body of `for (const auto &item : tracked_objects)` in the completion callback of
`PlayPhoneAlgo::async_infer`: `infer_objects` is declared inside the loop body. -/
def PlayPhoneAlgo.async_crop {TS SS ES : Type} (env : Env TS SS ES) (config : AlgoConfig)
    (cfg1 : ModelConfig) (image : Mat) (s : Loop ES) (item : AlgoObject) : Loop ES :=
  let rect := env.scale_crop_rect image.cols image.rows item.rect cfg1.crop_scale_factor
  let in_package := PlayPhoneAlgo.crop_package cfg1 image rect
  let r := env.InferSync s.engine in_package
  let infer_objects :=
    match meta_value r.2.2 with
    | some res => PlayPhoneAlgo.parse_infer_result env.default_track_id res
    | none => []
  let infer_objects := infer_objects.map (PlayPhoneAlgo.stamp rect item.track_id)
  let objects := env.find_cover_objects infer_objects config.include_labels
    config.exclude_labels config.map_label config.cover_threshold
  { engine := r.1,
    infer_objects := infer_objects,
    cover_objects := s.cover_objects ++ objects,
    trace := { s.trace with stage2 := s.trace.stage2 ++ [in_package],
                            cover := s.trace.cover ++ [infer_objects] } }

/-- What a `sync_infer` call leaves: the returned flag, the out-parameter
`statistic_objects`, the collaborators' states and the calls made. -/
structure SyncResult (TS SS ES : Type) where
  ok : Bool
  statistic_objects : List AlgoObject
  state : State TS SS ES
  trace : Trace

/-- What the completion callback of an `async_infer` call leaves. -/
structure AsyncResult (TS SS ES : Type) where
  state : State TS SS ES
  trace : Trace

/-- The detections parsed from a stage-1 `out_package` by `PlayPhoneAlgo`. -/
def PlayPhoneAlgo.stage1_objects (dflt : Int) (out_package : Package) : List AlgoObject :=
  match meta_value out_package with
  | some res => PlayPhoneAlgo.parse_infer_result dflt res
  | none => []

/-- `PlayPhoneAlgo::sync_infer`.  `cfg1` is `private_->model_configs[1]`; `stage1` is the
status and the `out_package` of `model_impls[0]->InferSync`; `statistic_objects` is the
out-parameter as the caller passed it. -/
def PlayPhoneAlgo.sync_infer {TS SS ES : Type} (env : Env TS SS ES) (config : AlgoConfig)
    (cfg1 : ModelConfig) (st : State TS SS ES) (image : Mat) (stage1 : Int × Package)
    (statistic_objects : List AlgoObject) : SyncResult TS SS ES :=
  if stage1.1 ≠ 0 then
    { ok := false, statistic_objects := statistic_objects, state := st, trace := Trace.empty }
  else
    let infer_objects := PlayPhoneAlgo.stage1_objects env.default_track_id stage1.2
    let t := track_step env st.tracker infer_objects
    let tracked_objects := t.2
    if ¬ tracked_objects.isEmpty then
      let tracked_objects := retained_tracks cfg1 tracked_objects
      let s := tracked_objects.foldl (PlayPhoneAlgo.sync_crop env config cfg1 image)
        { engine := st.engine, infer_objects := infer_objects, cover_objects := [],
          trace := Trace.tracked infer_objects }
      let u := env.statistic_update st.sequence_statistic s.cover_objects
      { ok := true, statistic_objects := u.2,
        state := { tracker := t.1, sequence_statistic := u.1, engine := s.engine },
        trace := { s.trace with statistic := [s.cover_objects] } }
    else
      { ok := true, statistic_objects := statistic_objects,
        state := { st with tracker := t.1 }, trace := Trace.tracked infer_objects }

/-- The completion callback of `PlayPhoneAlgo::async_infer`, run on the stage-1 outcome
`stage1` (its status is not read).  `infer_callback` tells whether the caller's callback is
non-null. -/
def PlayPhoneAlgo.async_infer {TS SS ES : Type} (env : Env TS SS ES) (config : AlgoConfig)
    (cfg1 : ModelConfig) (st : State TS SS ES) (image : Mat) (stage1 : Int × Package)
    (infer_callback : Bool) : AsyncResult TS SS ES :=
  let person_objects := PlayPhoneAlgo.stage1_objects env.default_track_id stage1.2
  let t := track_step env st.tracker person_objects
  let tracked_objects := t.2
  if tracked_objects.isEmpty ∧ infer_callback = true then
    { state := { st with tracker := t.1 },
      trace := { Trace.tracked person_objects with callback := [[]] } }
  else
    let tracked_objects := retained_tracks cfg1 tracked_objects
    let s := tracked_objects.foldl (PlayPhoneAlgo.async_crop env config cfg1 image)
      { engine := st.engine, infer_objects := [], cover_objects := [],
        trace := Trace.tracked person_objects }
    let u := env.statistic_update st.sequence_statistic s.cover_objects
    { state := { tracker := t.1, sequence_statistic := u.1, engine := s.engine },
      trace := { s.trace with statistic := [s.cover_objects],
                              callback := if infer_callback then [u.2] else [] } }

/-! ## `SmokeAlgo` frame passes -/

/-- The assignment `m[k] = v` on a `std::map<int, cv::Mat>`, held as its entries in
ascending key order. -/
def map_assign (k : Int) (v : Mat) : List (Int × Mat) → List (Int × Mat)
  | [] => [(k, v)]
  | e :: rest =>
    if k < e.1 then (k, v) :: e :: rest
    else if k = e.1 then (k, v) :: rest
    else e :: map_assign k v rest

/-- The call `v.at(i)` on a `std::vector` with an `int` index: `none` stands for the
`std::out_of_range` it throws (a negative `int` converts to an index past the end). -/
def vector_at (v : List AlgoObject) (i : Int) : Option AlgoObject :=
  if 0 ≤ i then v[i.toNat]? else none

/-- The first loop of the stage-2 block of `SmokeAlgo::sync_infer`: the map `crop_images`
filled from the retained tracks. -/
def SmokeAlgo.crop_images {TS SS ES : Type} (env : Env TS SS ES) (cfg1 : ModelConfig)
    (image : Mat) (track_objects : List AlgoObject) : List (Int × Mat) :=
  track_objects.foldl (fun crop_images item =>
    let rect := env.scale_crop_rect image.cols image.rows item.rect cfg1.crop_scale_factor
    map_assign item.target_id (Mat.crop image rect) crop_images) []

/-- The variables the per-crop loops of `SmokeAlgo` read and write. -/
structure SmokeLoop (SS ES : Type) where
  engine : ES
  sequence_statistic : SS
  infer_objects : List AlgoObject
  statistic_objects : List AlgoObject
  trace : Trace

/-- The loop `for (auto &[target_id, item] : crop_images)` of `SmokeAlgo::sync_infer`.  The
flag is `true` when `track_objects.at(target_id)` threw; the loop state is then the one at
the throw.  The surface handed to the stage-2 model is made from `image`. -/
def SmokeAlgo.sync_loop {TS SS ES : Type} (env : Env TS SS ES) (config : AlgoConfig)
    (cfg1 : ModelConfig) (image : Mat) (track_objects : List AlgoObject) :
    List (Int × Mat) → SmokeLoop SS ES → Bool × SmokeLoop SS ES
  | [], s => (false, s)
  | entry :: rest, s =>
    let in_package : InPackage := { surface := image, alg_param := none }
    let r := env.InferSync s.engine in_package
    let infer_objects :=
      match meta_value r.2.2 with
      | some res => SmokeAlgo.parse_infer_result env.default_track_id res cfg1.threshold
      | none => s.infer_objects
    let stage2 := s.trace.stage2 ++ [in_package]
    let stamped : Option (List AlgoObject) :=
      if infer_objects.isEmpty then some []
      else (vector_at track_objects entry.1).map
        (fun t => infer_objects.map (fun obj => { obj with track_id := t.track_id }))
    match stamped with
    | none =>
      (true, { s with engine := r.1, infer_objects := infer_objects,
                      trace := { s.trace with stage2 := stage2 } })
    | some infer_objects =>
      let cover_objects := env.find_cover_objects infer_objects config.include_labels
        config.exclude_labels config.map_label config.cover_threshold
      let u := env.statistic_update s.sequence_statistic cover_objects
      SmokeAlgo.sync_loop env config cfg1 image track_objects rest
        { engine := r.1, sequence_statistic := u.1, infer_objects := infer_objects,
          statistic_objects := u.2,
          trace := { s.trace with stage2 := stage2,
                                  cover := s.trace.cover ++ [infer_objects],
                                  statistic := s.trace.statistic ++ [cover_objects] } }

/-- What a `SmokeAlgo::sync_infer` call leaves; `returned` is `none` when
`std::out_of_range` left the call instead of a return value. -/
structure SmokeSyncResult (TS SS ES : Type) where
  returned : Option Bool
  statistic_objects : List AlgoObject
  state : State TS SS ES
  trace : Trace

/-- The detections parsed from a stage-1 `out_package` by `SmokeAlgo`. -/
def SmokeAlgo.stage1_objects (dflt : Int) (cfg0 : ModelConfig) (out_package : Package) :
    List AlgoObject :=
  match meta_value out_package with
  | some res => SmokeAlgo.parse_infer_result dflt res cfg0.threshold
  | none => []

/-- `SmokeAlgo::sync_infer`.  `cfg0`, `cfg1` are `private_->model_configs[0]` and `[1]`. -/
def SmokeAlgo.sync_infer {TS SS ES : Type} (env : Env TS SS ES) (config : AlgoConfig)
    (cfg0 cfg1 : ModelConfig) (st : State TS SS ES) (image : Mat) (stage1 : Int × Package)
    (statistic_objects : List AlgoObject) : SmokeSyncResult TS SS ES :=
  if stage1.1 ≠ 0 then
    { returned := some false, statistic_objects := statistic_objects, state := st,
      trace := Trace.empty }
  else
    let infer_objects := SmokeAlgo.stage1_objects env.default_track_id cfg0 stage1.2
    let t := track_step env st.tracker infer_objects
    let track_objects := t.2
    if ¬ track_objects.isEmpty then
      let track_objects := retained_tracks cfg1 track_objects
      let crop_images := SmokeAlgo.crop_images env cfg1 image track_objects
      let r := SmokeAlgo.sync_loop env config cfg1 image track_objects crop_images
        { engine := st.engine, sequence_statistic := st.sequence_statistic,
          infer_objects := infer_objects, statistic_objects := statistic_objects,
          trace := Trace.tracked infer_objects }
      { returned := if r.1 then none else some true,
        statistic_objects := r.2.statistic_objects,
        state := { tracker := t.1, sequence_statistic := r.2.sequence_statistic,
                   engine := r.2.engine },
        trace := r.2.trace }
    else
      { returned := some true, statistic_objects := statistic_objects,
        state := { st with tracker := t.1 }, trace := Trace.tracked infer_objects }

/-- The body of `for (auto &item : tracked_objects)` in the completion callback of
`SmokeAlgo::async_infer`: statistics update and callback happen per crop. -/
def SmokeAlgo.async_crop {TS SS ES : Type} (env : Env TS SS ES) (config : AlgoConfig)
    (cfg1 : ModelConfig) (image : Mat) (infer_callback : Bool) (s : SmokeLoop SS ES)
    (item : AlgoObject) : SmokeLoop SS ES :=
  let crop_rect := env.scale_crop_rect image.cols image.rows item.rect cfg1.crop_scale_factor
  let in_package : InPackage := { surface := Mat.crop image crop_rect, alg_param := none }
  let r := env.InferSync s.engine in_package
  let phone_objects :=
    match meta_value r.2.2 with
    | some res => SmokeAlgo.parse_infer_result env.default_track_id res cfg1.threshold
    | none => []
  let phone_objects := phone_objects.map (fun obj => { obj with track_id := item.track_id })
  let cover_objects := env.find_cover_objects phone_objects config.include_labels
    config.exclude_labels config.map_label config.cover_threshold
  let u := env.statistic_update s.sequence_statistic cover_objects
  { engine := r.1, sequence_statistic := u.1, infer_objects := phone_objects,
    statistic_objects := u.2,
    trace := { tracker := s.trace.tracker,
               stage2 := s.trace.stage2 ++ [in_package],
               cover := s.trace.cover ++ [phone_objects],
               statistic := s.trace.statistic ++ [cover_objects],
               callback := s.trace.callback ++ (if infer_callback then [u.2] else []) } }

/-- The completion callback of `SmokeAlgo::async_infer`, run on the stage-1 outcome. -/
def SmokeAlgo.async_infer {TS SS ES : Type} (env : Env TS SS ES) (config : AlgoConfig)
    (cfg0 cfg1 : ModelConfig) (st : State TS SS ES) (image : Mat) (stage1 : Int × Package)
    (infer_callback : Bool) : AsyncResult TS SS ES :=
  let person_objects := SmokeAlgo.stage1_objects env.default_track_id cfg0 stage1.2
  let t := track_step env st.tracker person_objects
  let tracked_objects := t.2
  if tracked_objects.isEmpty ∧ infer_callback = true then
    { state := { st with tracker := t.1 },
      trace := { Trace.tracked person_objects with callback := [[]] } }
  else
    let tracked_objects := retained_tracks cfg1 tracked_objects
    let s := tracked_objects.foldl (SmokeAlgo.async_crop env config cfg1 image infer_callback)
      { engine := st.engine, sequence_statistic := st.sequence_statistic,
        infer_objects := [], statistic_objects := [],
        trace := Trace.tracked person_objects }
    { state := { tracker := t.1, sequence_statistic := s.sequence_statistic,
                 engine := s.engine },
      trace := s.trace }

/-! ## Test doubles and concrete inputs

Deterministic stand-ins for the collaborators, used to run the passes on concrete frames. -/

/-- A tracker double: every detection becomes a track, `target_id` is the position in the
list and `track_id` is `100 +` the position; the state counts the calls. -/
def fake_tracker_update (n : Nat) (objects : List Object) : Nat × List STrack :=
  (n + 1, objects.enum.map (fun p =>
    { target_id := p.1, class_id := p.2.class_id, label_name := p.2.label_name,
      score := p.2.prob, tlwh0 := p.2.rect_x, tlwh1 := p.2.rect_y, tlwh2 := p.2.rect_width,
      tlwh3 := p.2.rect_height, track_id := 100 + p.1 }))

/-- A statistics double that confirms every cover object at once; the state counts the
calls. -/
def fake_statistic_update (n : Nat) (objects : List AlgoObject) : Nat × List AlgoObject :=
  (n + 1, objects)

/-- A matcher double with no label filter, no remapping and no overlap test. -/
def fake_find_cover_objects (objects : List AlgoObject) (_include _exclude : List String)
    (_map : List (String × String)) (_threshold : CFloat) : List AlgoObject :=
  objects

/-- A crop double that keeps the box (scale factor one, box inside the frame). -/
def fake_scale_crop_rect (_w _h : Int) (box : Rect) (_scale : CFloat) : Rect :=
  box

/-- A stage-2 result with one detection `phone` at `(2, 3)` of size `4 x 5` in the crop. -/
def phone_result : InferResult :=
  { result_type := [ResultType.GDD_RESULT_TYPE_DETECT],
    detect_imgs := [{ detect_objs :=
      [{ class_id := 1, label := "phone", score := .fin (4 / 5),
         bbox := { x := 2, y := 3, w := 4, h := 5 } }] }] }

/-- A stage-2 model double that finds `phone_result` in every crop. -/
def fake_infer_hit (n : Nat) (_p : InPackage) : Nat × Int × Package :=
  (n + 1, 0, [some phone_result])

/-- A stage-2 model double whose `out_package` never holds a result (the package is as
`Package::Create(1)` made it), with a non-zero status. -/
def fake_infer_miss (n : Nat) (_p : InPackage) : Nat × Int × Package :=
  (n + 1, -1, [none])

/-- The doubles assembled, around a stage-2 model double. -/
def fake_env (infer : Nat → InPackage → Nat × Int × Package) : Env Nat Nat Nat :=
  { tracker_update := fake_tracker_update,
    statistic_update := fake_statistic_update,
    InferSync := infer,
    scale_crop_rect := fake_scale_crop_rect,
    find_cover_objects := fake_find_cover_objects,
    default_track_id := 0 }

/-- Fresh collaborators. -/
def fresh_state : State Nat Nat Nat := { tracker := 0, sequence_statistic := 0, engine := 0 }

/-- An algorithm configuration without label filters. -/
def plain_config : AlgoConfig :=
  { include_labels := [], exclude_labels := [], map_label := [], cover_threshold := .fin (1 / 2) }

/-- A stage-1 model configuration. -/
def person_model : ModelConfig :=
  { name := "person", path := "person.gdd", license := "person.lic", threshold := .fin (3 / 10),
    nms_threshold := .fin (1 / 2), crop_scale_factor := .fin 1, max_crop_number := 5 }

/-- A stage-2 model configuration. -/
def phone_model : ModelConfig :=
  { name := "phone", path := "phone.gdd", license := "phone.lic", threshold := .fin (1 / 2),
    nms_threshold := .fin (1 / 2), crop_scale_factor := .fin 1, max_crop_number := 5 }

/-- A `1920 x 1080` frame. -/
def frame0 : Mat := Mat.frame 1920 1080 0

/-- A stage-1 `out_package` with the given person detections in one image. -/
def person_package (objs : List DetectObject) : Package :=
  [some { result_type := [ResultType.GDD_RESULT_TYPE_DETECT],
          detect_imgs := [{ detect_objs := objs }] }]

/-- A person detected with score `1/2` in a `10 x 10` box. -/
def person_low : DetectObject :=
  { class_id := 0, label := "person", score := .fin (1 / 2),
    bbox := { x := 100, y := 200, w := 10, h := 10 } }

/-- A person detected with score `9/10` in a `5 x 5` box. -/
def person_high : DetectObject :=
  { class_id := 0, label := "person", score := .fin (9 / 10),
    bbox := { x := 300, y := 400, w := 5, h := 5 } }

/-- The track of `person_low`, first in tracker output. -/
def track_low : AlgoObject :=
  { target_id := 0, class_id := 0, label := "person", score := .fin (1 / 2),
    rect := { x := 100, y := 200, width := 10, height := 10 }, track_id := 100 }

/-- The track of `person_high`, second in tracker output. -/
def track_high : AlgoObject :=
  { target_id := 1, class_id := 0, label := "person", score := .fin (9 / 10),
    rect := { x := 300, y := 400, width := 5, height := 5 }, track_id := 101 }

/-- An event left in the caller's result list by an earlier frame. -/
def stale_event : AlgoObject :=
  { target_id := 1, class_id := 1, label := "phone", score := .fin (4 / 5),
    rect := { x := 7, y := 8, width := 4, height := 5 }, track_id := 42 }

/-- The stage-1 detection `person_high` after the stamping loop of its own crop. -/
def person_high_stamped : AlgoObject :=
  { target_id := 1, class_id := 0, label := "person", score := .fin (9 / 10),
    rect := { x := 600, y := 800, width := 5, height := 5 }, track_id := 100 }

/-- The stage-2 detection of `phone_result` stamped with a track id by `SmokeAlgo`. -/
def smoke_hit (track_id : Int) : AlgoObject :=
  { target_id := 1, class_id := 1, label := "phone", score := .fin (4 / 5),
    rect := { x := 2, y := 3, width := 4, height := 5 }, track_id := track_id }

/-- A person detected with score `1/2` in a `5 x 5` box. -/
def person_far : DetectObject :=
  { class_id := 0, label := "person", score := .fin (1 / 2),
    bbox := { x := 100, y := 200, w := 5, h := 5 } }

/-- A person detected with score `9/10` in a `10 x 10` box. -/
def person_near : DetectObject :=
  { class_id := 0, label := "person", score := .fin (9 / 10),
    bbox := { x := 300, y := 400, w := 10, h := 10 } }

/-- The track of `person_far`, first in tracker output: `target_id = 0`, `track_id = 100`. -/
def track_far : AlgoObject :=
  { target_id := 0, class_id := 0, label := "person", score := .fin (1 / 2),
    rect := { x := 100, y := 200, width := 5, height := 5 }, track_id := 100 }

/-- The track of `person_near`, second in tracker output: `target_id = 1`,
`track_id = 101`. -/
def track_near : AlgoObject :=
  { target_id := 1, class_id := 0, label := "person", score := .fin (9 / 10),
    rect := { x := 300, y := 400, width := 10, height := 10 }, track_id := 101 }

/-- A track with score `7/10` and a `3 x 3` box. -/
def track_mid : AlgoObject :=
  { target_id := 2, class_id := 0, label := "person", score := .fin (7 / 10),
    rect := { x := 500, y := 600, width := 3, height := 3 }, track_id := 102 }

/-- A track with score `9/10` and a `1 x 1` box. -/
def track_tiny : AlgoObject :=
  { target_id := 3, class_id := 0, label := "person", score := .fin (9 / 10),
    rect := { x := 700, y := 800, width := 1, height := 1 }, track_id := 103 }

/-- A track with score `1/2` and a `2 x 2` box. -/
def track_weak : AlgoObject :=
  { target_id := 4, class_id := 0, label := "person", score := .fin (1 / 2),
    rect := { x := 900, y := 100, width := 2, height := 2 }, track_id := 104 }

/-- Neither track goes before the other under the ranking comparison. -/
def rank_incomparable (a b : AlgoObject) : Bool :=
  !rank_before a b && !rank_before b a

/-- The detections of one image as C12 words them: those with `score >= threshold`, in
input order, numbered `1, 2, ...` over the kept ones. -/
def SmokeAlgo.kept_numbered_img (dflt : Int) (threshold : CFloat) (item : DetectImg) :
    List AlgoObject :=
  ((item.detect_objs.filter (fun obj => decide (obj.score ≥ threshold))).enumFrom 1).map
    (fun p => parsed_object dflt p.1 p.2)

/-- The result of `parse_infer_result` as C12 words it: the kept and numbered detections of
every image, image after image. -/
def SmokeAlgo.kept_numbered (dflt : Int) (infer_result : InferResult) (threshold : CFloat) :
    List AlgoObject :=
  (infer_result.detect_imgs.map (SmokeAlgo.kept_numbered_img dflt threshold)).flatten

/-- The detections of one image that are not below the threshold: those with
`score >= threshold` and those that no comparison orders against the threshold, because
the score or the threshold is NaN; in input order, numbered `1, 2, ...` over the kept
ones. -/
def SmokeAlgo.kept_or_unordered_img (dflt : Int) (threshold : CFloat) (item : DetectImg) :
    List AlgoObject :=
  ((item.detect_objs.filter (fun obj =>
      decide (obj.score ≥ threshold) || obj.score.isNaN || threshold.isNaN)).enumFrom 1).map
    (fun p => parsed_object dflt p.1 p.2)

/-- The detections of every image that are not below the threshold, numbered per image,
image after image. -/
def SmokeAlgo.kept_or_unordered (dflt : Int) (infer_result : InferResult)
    (threshold : CFloat) : List AlgoObject :=
  (infer_result.detect_imgs.map (SmokeAlgo.kept_or_unordered_img dflt threshold)).flatten

/-- A stage-2 result with one detection entry and one image of two detections, the first
with a NaN score, the second with score `3/4`. -/
def nan_score_result : InferResult :=
  { result_type := [ResultType.GDD_RESULT_TYPE_DETECT],
    detect_imgs :=
      [{ detect_objs :=
          [{ class_id := 1, label := "smoke", score := CFloat.nan,
             bbox := { x := 1, y := 1, w := 2, h := 2 } },
           { class_id := 1, label := "smoke", score := .fin (3 / 4),
             bbox := { x := 3, y := 3, w := 2, h := 2 } }] }] }

/-- A stage-2 result with a non-detection entry and one detection entry, over two images;
the second detection of the first image has score `1/2`. -/
def two_image_result : InferResult :=
  { result_type := [ResultType.GDD_RESULT_TYPE_OTHER 3, ResultType.GDD_RESULT_TYPE_DETECT],
    detect_imgs :=
      [{ detect_objs :=
          [{ class_id := 1, label := "smoke", score := .fin (1 / 4),
             bbox := { x := 1, y := 1, w := 2, h := 2 } },
           { class_id := 1, label := "smoke", score := .fin (1 / 2),
             bbox := { x := 3, y := 3, w := 2, h := 2 } },
           { class_id := 1, label := "smoke", score := .fin (3 / 4),
             bbox := { x := 5, y := 5, w := 2, h := 2 } }] },
       { detect_objs :=
          [{ class_id := 1, label := "smoke", score := .fin (4 / 5),
             bbox := { x := 7, y := 7, w := 2, h := 2 } }] }] }

/-- An `Init` that accepts `person.gdd` and rejects every other model. -/
def init_person_only (path _license : String) : Int :=
  if path = "person.gdd" then 0 else -1

/-! ## Lemmas on the shared steps -/

set_option maxRecDepth 8000

theorem load_loop_two (Init : String → String → Int) (m0 m1 : ModelConfig) :
    load_loop Init [m0, m1] [] =
      if Init m0.path m0.license ≠ 0 then (false, [])
      else if Init m1.path m1.license ≠ 0 then (false, [algo_impl m0])
      else (true, [algo_impl m0, algo_impl m1]) := by
  simp only [load_loop, List.nil_append, List.singleton_append]

/-- C3: `PlayPhoneAlgo::load_models` returns `false` and leaves the stored configs and
handles as they were when the list does not have length 2; on a list `[m0, m1]` it returns
`true` exactly when `Init` succeeds (status 0) on both models, and then the stored handles
are the two new ones, in config order. -/
theorem PlayPhoneAlgo.load_models_spec (Init : String → String → Int) (st : ModelState)
    (models : List ModelConfig) :
    (models.length ≠ 2 → PlayPhoneAlgo.load_models Init st models = (false, st))
    ∧ (∀ m0 m1 : ModelConfig, models = [m0, m1] →
        ((PlayPhoneAlgo.load_models Init st models).1 = true
          ↔ (Init m0.path m0.license = 0 ∧ Init m1.path m1.license = 0))
        ∧ ((PlayPhoneAlgo.load_models Init st models).1 = true →
            (PlayPhoneAlgo.load_models Init st models).2.model_impls
              = [algo_impl m0, algo_impl m1])) := by
  constructor
  · intro h
    simp [PlayPhoneAlgo.load_models, h]
  · intro m0 m1 h
    subst h
    simp only [PlayPhoneAlgo.load_models, List.length_cons, List.length_nil, ne_eq,
      not_true_eq_false, if_false, load_loop_two]
    by_cases h0 : Init m0.path m0.license = 0 <;> by_cases h1 : Init m1.path m1.license = 0 <;>
      simp [h0, h1]

/-- A run of C3: a one-model list is refused with the state untouched, and a two-model list
whose models both initialise is loaded as two handles. -/
theorem PlayPhoneAlgo.load_models_spec_witness :
    PlayPhoneAlgo.load_models (fun _ _ => 0) { model_configs := [], model_impls := [] }
        [person_model] = (false, { model_configs := [], model_impls := [] })
    ∧ (PlayPhoneAlgo.load_models (fun _ _ => 0) { model_configs := [], model_impls := [] }
        [person_model, phone_model]).2.model_impls
          = [algo_impl person_model, algo_impl phone_model] :=
  ⟨(PlayPhoneAlgo.load_models_spec (fun _ _ => 0) { model_configs := [], model_impls := [] }
      [person_model]).1 (by decide),
   ((PlayPhoneAlgo.load_models_spec (fun _ _ => 0) { model_configs := [], model_impls := [] }
      [person_model, phone_model]).2 person_model phone_model rfl).2
      (((PlayPhoneAlgo.load_models_spec (fun _ _ => 0)
        { model_configs := [], model_impls := [] }
        [person_model, phone_model]).2 person_model phone_model rfl).1.mpr ⟨rfl, rfl⟩)⟩

/-! ## C7: stage-1 failure -/

/-- C7: when the stage-1 inference call reports a non-zero status, `PlayPhoneAlgo::sync_infer`
and `SmokeAlgo::sync_infer` return `false`, the tracker state and the sequence-statistics
state are the ones before the call, and neither `tracker->update` nor
`sequence_statistic->update` has been called. -/
theorem sync_infer_stage1_failure {TS SS ES : Type} (env : Env TS SS ES) (config : AlgoConfig)
    (cfg0 cfg1 : ModelConfig) (st : State TS SS ES) (image : Mat) (stage1 : Int × Package)
    (statistic_objects : List AlgoObject) (hfail : stage1.1 ≠ 0) :
    ((PlayPhoneAlgo.sync_infer env config cfg1 st image stage1 statistic_objects).ok = false
      ∧ (PlayPhoneAlgo.sync_infer env config cfg1 st image stage1
          statistic_objects).state.tracker = st.tracker
      ∧ (PlayPhoneAlgo.sync_infer env config cfg1 st image stage1
          statistic_objects).state.sequence_statistic = st.sequence_statistic
      ∧ (PlayPhoneAlgo.sync_infer env config cfg1 st image stage1
          statistic_objects).trace.tracker = []
      ∧ (PlayPhoneAlgo.sync_infer env config cfg1 st image stage1
          statistic_objects).trace.statistic = [])
    ∧ ((SmokeAlgo.sync_infer env config cfg0 cfg1 st image stage1
          statistic_objects).returned = some false
      ∧ (SmokeAlgo.sync_infer env config cfg0 cfg1 st image stage1
          statistic_objects).state.tracker = st.tracker
      ∧ (SmokeAlgo.sync_infer env config cfg0 cfg1 st image stage1
          statistic_objects).state.sequence_statistic = st.sequence_statistic
      ∧ (SmokeAlgo.sync_infer env config cfg0 cfg1 st image stage1
          statistic_objects).trace.tracker = []
      ∧ (SmokeAlgo.sync_infer env config cfg0 cfg1 st image stage1
          statistic_objects).trace.statistic = []) := by
  unfold PlayPhoneAlgo.sync_infer SmokeAlgo.sync_infer
  rw [if_pos hfail, if_pos hfail]
  simp [Trace.empty]

/-- A run of C7: stage 1 fails with status `-1` on a frame with one person. -/
theorem sync_infer_stage1_failure_witness :
    (PlayPhoneAlgo.sync_infer (fake_env fake_infer_hit) plain_config phone_model
        { tracker := 3, sequence_statistic := 4, engine := 5 } frame0
        (-1, person_package [person_high]) []).ok = false
    ∧ (PlayPhoneAlgo.sync_infer (fake_env fake_infer_hit) plain_config phone_model
        { tracker := 3, sequence_statistic := 4, engine := 5 } frame0
        (-1, person_package [person_high]) []).state.tracker = 3
    ∧ (SmokeAlgo.sync_infer (fake_env fake_infer_hit) plain_config person_model phone_model
        { tracker := 3, sequence_statistic := 4, engine := 5 } frame0
        (-1, person_package [person_high]) []).state.sequence_statistic = 4 :=
  have h := sync_infer_stage1_failure (fake_env fake_infer_hit) plain_config person_model
    phone_model { tracker := 3, sequence_statistic := 4, engine := 5 } frame0
    (-1, person_package [person_high]) [] (by decide)
  ⟨h.1.1, h.1.2.1, h.2.2.2.1⟩

/-! ## C1: the ranking step on a concrete tracker output -/

/-- C1, at tracker output `[track_low, track_high]`: the two doubles' tracks come out of the
tracking step in that order, the comparison puts neither before the other, the sort leaves
the lower-scoring track first, and with `max_crop_number = 1` the higher-scoring track is
the one dropped. -/
theorem rank_keeps_lower_score_first :
    (track_step (fake_env fake_infer_hit) 0
        (PlayPhoneAlgo.stage1_objects 0 (person_package [person_low, person_high]))).2
      = [track_low, track_high]
    ∧ track_low.score < track_high.score
    ∧ rank_before track_high track_low = false
    ∧ rank_before track_low track_high = false
    ∧ std_sort rank_before [track_low, track_high] = [track_low, track_high]
    ∧ retained_tracks { phone_model with max_crop_number := 1 } [track_low, track_high]
        = [track_low] := by
  with_unfolding_all decide

/-! ## C4, C5: `load_models` on concrete lists -/

/-- C4, at the empty list and at a one-model list: `SmokeAlgo::load_models` returns `true`
on both and stores no second model, where `PlayPhoneAlgo::load_models` returns `false`. -/
theorem SmokeAlgo.load_models_accepts_short_lists :
    SmokeAlgo.load_models init_person_only { model_configs := [], model_impls := [] } []
      = (true, { model_configs := [], model_impls := [] })
    ∧ SmokeAlgo.load_models init_person_only { model_configs := [], model_impls := [] }
        [person_model]
      = (true, { model_configs := [person_model], model_impls := [algo_impl person_model] })
    ∧ (PlayPhoneAlgo.load_models init_person_only { model_configs := [], model_impls := [] }
        [person_model]).1 = false := by
  with_unfolding_all decide

/-- C6, at a frame with no detection and a result list holding `stale_event` on entry:
`PlayPhoneAlgo::sync_infer` returns `true`, runs no stage-2 inference and no statistics
update, and the result list still holds `stale_event`; `async_infer` hands the empty list
to the callback. -/
theorem PlayPhoneAlgo.sync_infer_keeps_entry_list :
    (track_step (fake_env fake_infer_hit) 0
        (PlayPhoneAlgo.stage1_objects 0 (person_package []))).2 = []
    ∧ (PlayPhoneAlgo.sync_infer (fake_env fake_infer_hit) plain_config phone_model
        fresh_state frame0 (0, person_package []) [stale_event]).ok = true
    ∧ (PlayPhoneAlgo.sync_infer (fake_env fake_infer_hit) plain_config phone_model
        fresh_state frame0 (0, person_package []) [stale_event]).statistic_objects
          = [stale_event]
    ∧ (PlayPhoneAlgo.sync_infer (fake_env fake_infer_hit) plain_config phone_model
        fresh_state frame0 (0, person_package []) [stale_event]).trace.stage2 = []
    ∧ (PlayPhoneAlgo.sync_infer (fake_env fake_infer_hit) plain_config phone_model
        fresh_state frame0 (0, person_package []) [stale_event]).trace.statistic = []
    ∧ (PlayPhoneAlgo.async_infer (fake_env fake_infer_hit) plain_config phone_model
        fresh_state frame0 (0, person_package []) true).trace.callback = [[]] := by
  with_unfolding_all decide

/-! ## C8, C10: a crop whose stage-2 output holds no result -/

/-- C8, at a frame with one person whose crop yields no stage-2 result: `sync_infer` leaves
`[person_high_stamped]` in its result parameter and feeds it to the statistics engine,
`async_infer` hands `[]` to the callback and feeds `[]` to the statistics engine. -/
theorem PlayPhoneAlgo.sync_async_differ :
    (PlayPhoneAlgo.sync_infer (fake_env fake_infer_miss) plain_config phone_model
        fresh_state frame0 (0, person_package [person_high]) []).statistic_objects
      = [person_high_stamped]
    ∧ (PlayPhoneAlgo.async_infer (fake_env fake_infer_miss) plain_config phone_model
        fresh_state frame0 (0, person_package [person_high]) true).trace.callback = [[]]
    ∧ (PlayPhoneAlgo.sync_infer (fake_env fake_infer_miss) plain_config phone_model
        fresh_state frame0 (0, person_package [person_high]) []).trace.statistic
      = [[person_high_stamped]]
    ∧ (PlayPhoneAlgo.async_infer (fake_env fake_infer_miss) plain_config phone_model
        fresh_state frame0 (0, person_package [person_high]) true).trace.statistic
      = [[]] := by
  with_unfolding_all decide

/-- C10, at the same frame: the stage-2 `out_package` of the only crop holds no result, and
the list `sync_infer` hands to `find_cover_objects` for that crop is the stage-1 detection
of the person, shifted by the crop origin `(300, 400)` and stamped with track id `100`. -/
theorem PlayPhoneAlgo.sync_infer_hands_stale_detections :
    (PlayPhoneAlgo.sync_infer (fake_env fake_infer_miss) plain_config phone_model
        fresh_state frame0 (0, person_package [person_high]) []).trace.stage2
      = [PlayPhoneAlgo.crop_package phone_model frame0
          { x := 300, y := 400, width := 5, height := 5 }]
    ∧ meta_value (fake_infer_miss 0 (PlayPhoneAlgo.crop_package phone_model frame0
          { x := 300, y := 400, width := 5, height := 5 })).2.2 = none
    ∧ (PlayPhoneAlgo.sync_infer (fake_env fake_infer_miss) plain_config phone_model
        fresh_state frame0 (0, person_package [person_high]) []).trace.cover
      = [[person_high_stamped]]
    ∧ (PlayPhoneAlgo.async_infer (fake_env fake_infer_miss) plain_config phone_model
        fresh_state frame0 (0, person_package [person_high]) true).trace.cover = [[]] := by
  with_unfolding_all decide

/-! ## C9: `SmokeAlgo` on a frame with two tracks -/

/-- C9, at a frame with two retained tracks: `SmokeAlgo::sync_infer` updates the statistics
engine twice, once per crop, and returns the output of the second update only;
`async_infer` updates it twice and invokes the callback twice. -/
theorem SmokeAlgo.statistics_updated_per_crop :
    (SmokeAlgo.sync_infer (fake_env fake_infer_hit) plain_config person_model phone_model
        fresh_state frame0 (0, person_package [person_low, person_high]) []).returned
      = some true
    ∧ (SmokeAlgo.sync_infer (fake_env fake_infer_hit) plain_config person_model phone_model
        fresh_state frame0 (0, person_package [person_low, person_high]) []).trace.statistic
      = [[smoke_hit 100], [smoke_hit 101]]
    ∧ (SmokeAlgo.sync_infer (fake_env fake_infer_hit) plain_config person_model phone_model
        fresh_state frame0 (0, person_package [person_low, person_high])
        []).statistic_objects = [smoke_hit 101]
    ∧ (SmokeAlgo.async_infer (fake_env fake_infer_hit) plain_config person_model phone_model
        fresh_state frame0 (0, person_package [person_low, person_high]) true).trace.statistic
      = [[smoke_hit 100], [smoke_hit 101]]
    ∧ (SmokeAlgo.async_infer (fake_env fake_infer_hit) plain_config person_model phone_model
        fresh_state frame0 (0, person_package [person_low, person_high]) true).trace.callback
      = [[smoke_hit 100], [smoke_hit 101]] := by
  with_unfolding_all decide

/-! ## C12: `SmokeAlgo::parse_infer_result` -/

theorem CFloat.not_lt_iff (a b : CFloat) :
    ¬ a < b ↔ (a ≥ b ∨ a.isNaN = true ∨ b.isNaN = true) := by
  show ¬ CFloat.lt a b = true ↔ (CFloat.le b a = true ∨ a.isNaN = true ∨ b.isNaN = true)
  cases a <;> cases b <;> simp [CFloat.lt, CFloat.le, CFloat.isNaN]

theorem CFloat.ge_of_not_lt (a b : CFloat) (ha : a.isNaN = false) (hb : b.isNaN = false) :
    ¬ a < b ↔ a ≥ b := by
  rw [CFloat.not_lt_iff]
  simp [ha, hb]

theorem SmokeAlgo.objs_fold (dflt : Int) (threshold : CFloat) (objs : List DetectObject)
    (objects : List AlgoObject) (k : Nat) :
    objs.foldl (fun (acc : List AlgoObject × Int) obj =>
        if obj.score < threshold then acc
        else (acc.1 ++ [parsed_object dflt acc.2 obj], acc.2 + 1)) (objects, (k : Int))
      = (objects ++ ((objs.filter (fun obj =>
            decide (obj.score ≥ threshold) || obj.score.isNaN || threshold.isNaN)).enumFrom
              k).map (fun p => parsed_object dflt p.1 p.2),
          ((k + (objs.filter (fun obj =>
            decide (obj.score ≥ threshold) || obj.score.isNaN || threshold.isNaN)).length
              : Nat) : Int)) := by
  induction objs generalizing objects k with
  | nil => simp
  | cons obj rest ih =>
    rw [List.foldl_cons]
    by_cases h : obj.score < threshold
    · have hd : (decide (obj.score ≥ threshold) || obj.score.isNaN || threshold.isNaN)
          = false := by
        have hn := (CFloat.not_lt_iff obj.score threshold).not.mp (not_not.mpr h)
        simpa [not_or, and_assoc] using hn
      rw [if_pos h, ih]
      simp only [List.filter_cons, hd, Bool.false_eq_true, if_false]
    · have hd : (decide (obj.score ≥ threshold) || obj.score.isNaN || threshold.isNaN)
          = true := by
        have hn := (CFloat.not_lt_iff obj.score threshold).mp h
        simpa [or_assoc] using hn
      have hk : ((k : Int) + 1) = ((k + 1 : Nat) : Int) := by push_cast; rfl
      rw [if_neg h]
      simp only [hk]
      rw [ih]
      simp only [List.filter_cons, hd, if_true, List.enumFrom_cons, List.map_cons,
        List.length_cons, List.append_assoc, List.singleton_append]
      congr 2
      omega

theorem SmokeAlgo.imgs_fold (dflt : Int) (threshold : CFloat) (imgs : List DetectImg)
    (objects : List AlgoObject) :
    imgs.foldl (fun objects item =>
        (item.detect_objs.foldl (fun (acc : List AlgoObject × Int) obj =>
          if obj.score < threshold then acc
          else (acc.1 ++ [parsed_object dflt acc.2 obj], acc.2 + 1)) (objects, 1)).1) objects
      = objects ++ (imgs.map (SmokeAlgo.kept_or_unordered_img dflt threshold)).flatten := by
  induction imgs generalizing objects with
  | nil => simp
  | cons item rest ih =>
    rw [List.foldl_cons]
    have h := SmokeAlgo.objs_fold dflt threshold item.detect_objs objects 1
    simp only [Nat.cast_one] at h
    rw [h, ih]
    simp [SmokeAlgo.kept_or_unordered_img]

theorem SmokeAlgo.types_fold_absent (S : List AlgoObject) (types : List ResultType)
    (objects : List AlgoObject) (h : ResultType.GDD_RESULT_TYPE_DETECT ∉ types) :
    types.foldl (fun objects result_type =>
        if result_type = ResultType.GDD_RESULT_TYPE_DETECT then objects ++ S else objects)
      objects = objects := by
  induction types generalizing objects with
  | nil => rfl
  | cons t rest ih =>
    have ht : t ≠ ResultType.GDD_RESULT_TYPE_DETECT := fun e => h (by simp [e])
    have hr : ResultType.GDD_RESULT_TYPE_DETECT ∉ rest := fun e => h (by simp [e])
    rw [List.foldl_cons, if_neg ht, ih _ hr]

theorem SmokeAlgo.types_fold_once (S : List AlgoObject) (types : List ResultType)
    (objects : List AlgoObject)
    (h : types.count ResultType.GDD_RESULT_TYPE_DETECT = 1) :
    types.foldl (fun objects result_type =>
        if result_type = ResultType.GDD_RESULT_TYPE_DETECT then objects ++ S else objects)
      objects = objects ++ S := by
  induction types generalizing objects with
  | nil => simp at h
  | cons t rest ih =>
    rw [List.foldl_cons]
    by_cases ht : t = ResultType.GDD_RESULT_TYPE_DETECT
    · subst ht
      rw [List.count_cons_self] at h
      have hr : ResultType.GDD_RESULT_TYPE_DETECT ∉ rest :=
        List.count_eq_zero.mp (by omega)
      rw [if_pos rfl, SmokeAlgo.types_fold_absent S rest _ hr]
    · rw [List.count_cons_of_ne (Ne.symm ht)] at h
      rw [if_neg ht, ih _ h]

theorem SmokeAlgo.parse_infer_result_fold (dflt : Int) (infer_result : InferResult)
    (threshold : CFloat) :
    SmokeAlgo.parse_infer_result dflt infer_result threshold
      = infer_result.result_type.foldl (fun objects result_type =>
          if result_type = ResultType.GDD_RESULT_TYPE_DETECT then
            objects ++ SmokeAlgo.kept_or_unordered dflt infer_result threshold
          else objects) [] := by
  unfold SmokeAlgo.parse_infer_result SmokeAlgo.kept_or_unordered
  simp only [SmokeAlgo.imgs_fold]

theorem SmokeAlgo.kept_or_unordered_ordered (dflt : Int) (infer_result : InferResult)
    (threshold : CFloat) (ht : threshold.isNaN = false)
    (hs : ∀ item ∈ infer_result.detect_imgs, ∀ obj ∈ item.detect_objs,
      obj.score.isNaN = false) :
    SmokeAlgo.kept_or_unordered dflt infer_result threshold
      = SmokeAlgo.kept_numbered dflt infer_result threshold := by
  unfold SmokeAlgo.kept_or_unordered SmokeAlgo.kept_numbered
  congr 1
  apply List.map_congr_left
  intro item hitem
  unfold SmokeAlgo.kept_or_unordered_img SmokeAlgo.kept_numbered_img
  congr 2
  apply List.filter_congr
  intro obj hobj
  simp [ht, hs item hitem obj hobj]

/-- C12, at a detection whose score is NaN and at a NaN threshold: on `nan_score_result`
with threshold `1/2` the code keeps the NaN-score detection as number `1` and the `3/4` one
as number `2`, where the detections with `score >= threshold` are the `3/4` one alone,
numbered `1`; on `two_image_result` with a NaN threshold the code keeps all four
detections, where none has `score >= threshold`. -/
theorem SmokeAlgo.parse_infer_result_keeps_nan :
    nan_score_result.result_type.count ResultType.GDD_RESULT_TYPE_DETECT = 1
    ∧ SmokeAlgo.parse_infer_result 0 nan_score_result (.fin (1 / 2))
        ≠ SmokeAlgo.kept_numbered 0 nan_score_result (.fin (1 / 2))
    ∧ (SmokeAlgo.parse_infer_result 0 nan_score_result (.fin (1 / 2))).map
        (fun obj => (obj.target_id, obj.score)) = [(1, CFloat.nan), (2, .fin (3 / 4))]
    ∧ (SmokeAlgo.kept_numbered 0 nan_score_result (.fin (1 / 2))).map
        (fun obj => (obj.target_id, obj.score)) = [(1, .fin (3 / 4))]
    ∧ two_image_result.result_type.count ResultType.GDD_RESULT_TYPE_DETECT = 1
    ∧ (SmokeAlgo.parse_infer_result 0 two_image_result CFloat.nan).map
        (fun obj => (obj.target_id, obj.score))
      = [(1, .fin (1 / 4)), (2, .fin (1 / 2)), (3, .fin (3 / 4)), (1, .fin (4 / 5))]
    ∧ SmokeAlgo.kept_numbered 0 two_image_result CFloat.nan = [] := by
  with_unfolding_all decide

/-- C12 as amended: on an inference result whose `result_type` holds exactly one detection
entry, `SmokeAlgo::parse_infer_result` returns, image after image, the detections that are
not below the threshold (those with `score >= threshold`, a score equal to the threshold
included, and every detection whose score is NaN, and every detection when the threshold is
NaN) in input order, numbered `1, 2, ...` within the image over the kept detections only;
when neither the threshold nor any score is NaN these are exactly the detections with
`score >= threshold`; on a result without a detection entry it returns the empty list. -/
theorem SmokeAlgo.parse_infer_result_spec (dflt : Int) (infer_result : InferResult)
    (threshold : CFloat) :
    (infer_result.result_type.count ResultType.GDD_RESULT_TYPE_DETECT = 1 →
      SmokeAlgo.parse_infer_result dflt infer_result threshold
          = SmokeAlgo.kept_or_unordered dflt infer_result threshold
        ∧ (threshold.isNaN = false →
            (∀ item ∈ infer_result.detect_imgs, ∀ obj ∈ item.detect_objs,
              obj.score.isNaN = false) →
            SmokeAlgo.parse_infer_result dflt infer_result threshold
              = SmokeAlgo.kept_numbered dflt infer_result threshold))
    ∧ (ResultType.GDD_RESULT_TYPE_DETECT ∉ infer_result.result_type →
      SmokeAlgo.parse_infer_result dflt infer_result threshold = []) := by
  rw [SmokeAlgo.parse_infer_result_fold]
  constructor
  · intro h
    rw [SmokeAlgo.types_fold_once _ _ _ h, List.nil_append]
    exact ⟨rfl, fun ht hs => SmokeAlgo.kept_or_unordered_ordered dflt infer_result
      threshold ht hs⟩
  · intro h
    rw [SmokeAlgo.types_fold_absent _ _ _ h]

/-- A run of the amended C12 on `two_image_result` with threshold `1/2` (no NaN): the
detection with score `1/2` is kept, the ids restart at `1` in the second image, the result
is the list of detections with `score >= threshold`, and without the detection entry the
result is empty. -/
theorem SmokeAlgo.parse_infer_result_spec_witness :
    SmokeAlgo.parse_infer_result 0 two_image_result (.fin (1 / 2))
      = SmokeAlgo.kept_or_unordered 0 two_image_result (.fin (1 / 2))
    ∧ SmokeAlgo.parse_infer_result 0 two_image_result (.fin (1 / 2))
      = SmokeAlgo.kept_numbered 0 two_image_result (.fin (1 / 2))
    ∧ (SmokeAlgo.kept_numbered 0 two_image_result (.fin (1 / 2))).map
        (fun obj => (obj.target_id, obj.score))
      = [(1, .fin (1 / 2)), (2, .fin (3 / 4)), (1, .fin (4 / 5))]
    ∧ SmokeAlgo.parse_infer_result 0
        { two_image_result with result_type := [ResultType.GDD_RESULT_TYPE_OTHER 3] }
        (.fin (1 / 2)) = [] :=
  ⟨((SmokeAlgo.parse_infer_result_spec 0 two_image_result (.fin (1 / 2))).1
      (by decide)).1,
   ((SmokeAlgo.parse_infer_result_spec 0 two_image_result (.fin (1 / 2))).1
      (by decide)).2 rfl (by with_unfolding_all decide),
   by with_unfolding_all decide,
   (SmokeAlgo.parse_infer_result_spec 0
      { two_image_result with result_type := [ResultType.GDD_RESULT_TYPE_OTHER 3] }
      (.fin (1 / 2))).2 (by decide)⟩

/-! ## C11: the track looked up for a crop in `SmokeAlgo::sync_infer` -/

/-- C11, at a frame with two persons whose tracks the ranking swaps: the retained list is
`[track_near, track_far]`, the crop keyed by `target_id = 0` is the one of `track_far`
(track id `100`), `track_objects.at(0)` is `track_near`, and the detection of that crop is
stamped with track id `101`; with `max_crop_number = 1` the only retained track has
`target_id = 1`, `track_objects.at(1)` throws and the call does not return. -/
theorem SmokeAlgo.sync_infer_looks_up_by_position :
    retained_tracks phone_model
        (track_step (fake_env fake_infer_hit) 0
          (SmokeAlgo.stage1_objects 0 person_model
            (person_package [person_far, person_near]))).2
      = [track_near, track_far]
    ∧ SmokeAlgo.crop_images (fake_env fake_infer_hit) phone_model frame0
        [track_near, track_far]
      = [(0, Mat.crop frame0 track_far.rect), (1, Mat.crop frame0 track_near.rect)]
    ∧ vector_at [track_near, track_far] 0 = some track_near
    ∧ (SmokeAlgo.sync_infer (fake_env fake_infer_hit) plain_config person_model phone_model
        fresh_state frame0 (0, person_package [person_far, person_near]) []).trace.cover
      = [[smoke_hit 101], [smoke_hit 100]]
    ∧ vector_at [track_near] 1 = none
    ∧ (SmokeAlgo.sync_infer (fake_env fake_infer_hit) plain_config person_model
        { phone_model with max_crop_number := 1 } fresh_state frame0
        (0, person_package [person_far, person_near]) []).returned = none := by
  with_unfolding_all decide

/-! ## C13: the ranking comparison as an ordering -/

theorem rank_before_irrefl (a : AlgoObject) : rank_before a a = false := by
  simp [rank_before]

theorem cfloat_lt_trans (a b c : CFloat) (hab : a < b) (hbc : b < c) : a < c := by
  revert hab hbc
  show CFloat.lt a b = true → CFloat.lt b c = true → CFloat.lt a c = true
  cases a <;> cases b <;> cases c <;> simp [CFloat.lt]
  exact fun h1 h2 => lt_trans h1 h2

theorem rank_before_trans (a b c : AlgoObject) (hab : rank_before a b = true)
    (hbc : rank_before b c = true) : rank_before a c = true := by
  simp only [rank_before, Bool.and_eq_true, decide_eq_true_eq] at *
  exact ⟨cfloat_lt_trans _ _ _ hbc.1 hab.1, lt_trans hbc.2 hab.2⟩

/-- C13, at the tracks `track_weak` (score `1/2`, box `2 x 2`), `track_tiny` (score `9/10`,
box `1 x 1`) and `track_mid` (score `7/10`, box `3 x 3`): the comparison leaves
`track_weak`, `track_tiny` unordered and `track_tiny`, `track_mid` unordered, yet puts
`track_mid` before `track_weak`. -/
theorem rank_incomparable_not_transitive :
    rank_incomparable track_weak track_tiny = true
    ∧ rank_incomparable track_tiny track_mid = true
    ∧ rank_incomparable track_weak track_mid = false
    ∧ rank_before track_mid track_weak = true := by
  with_unfolding_all decide

/-! ## C14: `PlayPhoneAlgo::async_infer` with and without a callback -/

theorem PlayPhoneAlgo.async_infer_statistic_with_tracks {TS SS ES : Type}
    (env : Env TS SS ES) (config : AlgoConfig) (cfg1 : ModelConfig) (st : State TS SS ES)
    (image : Mat) (stage1 : Int × Package)
    (htracks : (track_step env st.tracker
      (PlayPhoneAlgo.stage1_objects env.default_track_id stage1.2)).2.isEmpty = false) :
    (PlayPhoneAlgo.async_infer env config cfg1 st image stage1 true).trace.statistic
      = (PlayPhoneAlgo.async_infer env config cfg1 st image stage1 false).trace.statistic
    ∧ (PlayPhoneAlgo.async_infer env config cfg1 st image stage1
          true).state.sequence_statistic
      = (PlayPhoneAlgo.async_infer env config cfg1 st image stage1
          false).state.sequence_statistic := by
  unfold PlayPhoneAlgo.async_infer
  simp [htracks]

/-- C14, at a frame on which the tracker returns no track: with a callback
`async_infer` makes no statistics update and the statistics state stays `0`; without a
callback it calls `sequence_statistic->update` once, on the empty list, and the state
becomes `1`. -/
theorem PlayPhoneAlgo.async_infer_statistic_depends_on_callback :
    (track_step (fake_env fake_infer_hit) 0
        (PlayPhoneAlgo.stage1_objects 0 (person_package []))).2 = []
    ∧ (PlayPhoneAlgo.async_infer (fake_env fake_infer_hit) plain_config phone_model
        fresh_state frame0 (0, person_package []) true).trace.statistic = []
    ∧ (PlayPhoneAlgo.async_infer (fake_env fake_infer_hit) plain_config phone_model
        fresh_state frame0 (0, person_package []) true).state.sequence_statistic = 0
    ∧ (PlayPhoneAlgo.async_infer (fake_env fake_infer_hit) plain_config phone_model
        fresh_state frame0 (0, person_package []) false).trace.statistic = [[]]
    ∧ (PlayPhoneAlgo.async_infer (fake_env fake_infer_hit) plain_config phone_model
        fresh_state frame0 (0, person_package []) false).state.sequence_statistic = 1 := by
  with_unfolding_all decide

end gddi
